import Mathlib

/-
  Verification development for the n8n-manager repository.

  Shallow embedding of src/app/{n8n,auth,cleanup,worker,routes,job_status,config}.py.
  Python strings are Lean String, Python int is ℤ/ℕ, Python float arithmetic on
  RAM sizes is modelled exactly over ℚ, dicts with a fixed key schema are
  association lists (List (String × String)), and fallible code returns Except.
-/

namespace N8nMgr


/- ── Config defaults (src/app/config.py).  Each value is the os.getenv default. ── -/

def BASE_DOMAIN : String := "n8n.marketcodebrasil.com.br"

def N8N_IMAGE : String := "docker.n8n.io/n8nio/n8n"

def DEFAULT_N8N_VERSION : String := "1.123.20"

def DEFAULT_TIMEZONE : String := "America/Sao_Paulo"

def TRAEFIK_CERT_RESOLVER : String := "letsencrypt"

/-- Configuration value from config.py line 43: READINESS_MAX_ATTEMPTS, default 90. -/
def READINESS_MAX_ATTEMPTS : Nat := 90

/-- Configuration value from config.py line 44: READINESS_POLL_INTERVAL, default 2. -/
def READINESS_POLL_INTERVAL : Nat := 2

/-- Configuration value from config.py line 48: CLEANUP_MAX_AGE_DAYS, default 5. -/
def CLEANUP_MAX_AGE_DAYS : Nat := 5

/-- Modelled from the spec: config.py does not define SSL_ENABLED even though
n8n.py, infra.py and routes.py import it from .config; the spec (§1, §6) puts a
TLS-terminating proxy in front of every instance, so SSL is on. -/
def SSL_ENABLED : Bool := true

/-- Modelled from the spec: config.py does not define PROTOCOL even though
n8n.py and routes.py import it from .config; per the spec the public scheme
with SSL enabled is https. -/
def PROTOCOL : String := "https"

/- ── Python string primitives used by the embedded code. ── -/

/-- Python str.lower, restricted to its ASCII action (all characters the name
regex can accept are ASCII). -/
def pyLower (s : String) : String := String.mk (s.data.map Char.toLower)

/-- Python str.strip with no argument: remove whitespace from both ends
(implemented over the character list so that it evaluates by kernel
reduction). -/
def pyStrip (s : String) : String :=
  String.mk (((s.data.dropWhile Char.isWhitespace).reverse.dropWhile
      Char.isWhitespace).reverse)

/-- Python str.startswith, over the character list. -/
def pyStartsWith (s p : String) : Bool := p.data.isPrefixOf s.data

/- ── Name and version validation (src/app/n8n.py lines 29-46). ── -/

/-- Character class [a-z0-9] of the name regex. -/
def isLowerAlnum (c : Char) : Bool :=
  (decide ('a' ≤ c) && decide (c ≤ 'z')) || (decide ('0' ≤ c) && decide (c ≤ '9'))

/-- Character class [a-z0-9-] of the name regex. -/
def isNameChar (c : Char) : Bool := isLowerAlnum c || decide (c = '-')

/-- Matcher for the regex tail [a-z0-9-]* ending in [a-z0-9] (at least one
character): everything before the final character is in [a-z0-9-] and the
final character is in [a-z0-9]. -/
def nameTail : List Char → Bool
  | [] => false
  | [c] => isLowerAlnum c
  | c :: c2 :: rest => isNameChar c && nameTail (c2 :: rest)

/-- Decision procedure for _VALID_NAME = ^[a-z0-9][a-z0-9-]{0,30}[a-z0-9]$
(n8n.py line 29): first char in [a-z0-9], a tail of length 1..31 whose last
char is in [a-z0-9] with [a-z0-9-] before it, total length at most 32. -/
def matchesName (s : String) : Bool :=
  match s.data with
  | [] => false
  | c :: rest => isLowerAlnum c && nameTail rest && decide (s.data.length ≤ 32)

/-- Decision procedure for \d{1,3}: one to three digits. -/
def isDigits13 (l : List Char) : Bool :=
  decide (1 ≤ l.length) && decide (l.length ≤ 3) && l.all Char.isDigit

/-- Split a character list at every occurrence of the separator, in the way
Python str.split does (empty groups preserved). -/
def splitOnChar (sep : Char) : List Char → List (List Char)
  | [] => [[]]
  | c :: rest =>
    match splitOnChar sep rest with
    | [] => if c = sep then [[], [c]] else [[c]]
    | g :: gs => if c = sep then [] :: g :: gs else (c :: g) :: gs

/-- Decision procedure for _VALID_VERSION = ^(latest|1\.\d{1,3}\.\d{1,3})$
(n8n.py line 30).  A string matches the second alternative exactly when
splitting on the dots yields ["1", b, c] with b and c being 1-3 digit
groups. -/
def matchesVersion (s : String) : Bool :=
  (s == "latest") ||
  (match splitOnChar '.' s.data with
   | [a, b, c] => (a == ['1']) && isDigits13 b && isDigits13 c
   | _ => false)

/-- Embedding of validate_instance_name (n8n.py lines 33-38): lowercase, strip,
reject the empty string and any non-match, return the normalized name. -/
def validateInstanceName (s : String) : Except String String :=
  let name := pyStrip (pyLower s)
  if name = "" ∨ matchesName name = false then
    Except.error "Nome deve conter apenas letras minusculas, numeros e hifens (2-32 chars)"
  else Except.ok name

/-- Embedding of validate_version (n8n.py lines 41-46): strip, reject any
non-match, return the stripped version. -/
def validateVersion (s : String) : Except String String :=
  let v := pyStrip s
  if matchesVersion v = false then
    Except.error ("Versao invalida: '" ++ v ++ "'. Use formato 1.X.Y ou 'latest'")
  else Except.ok v

/-- Embedding of container_name (n8n.py lines 49-50). -/
def containerName (instanceName : String) : String := "n8n-" ++ instanceName

/-- Embedding of instance_url (n8n.py lines 53-54). -/
def instanceUrl (instanceName : String) : String :=
  PROTOCOL ++ "://" ++ instanceName ++ "." ++ BASE_DOMAIN

/- ── Bearer-token authentication (src/app/auth.py). ── -/

/-- Result of the verify_token dependency: an HTTPException with status code
and detail, or the extracted token on success. -/
inductive AuthResult where
  | httpErr (code : Nat) (detail : String)
  | passed (token : String)
deriving DecidableEq

/-- Python str.removeprefix("Bearer "): drop the first 7 characters when the
string starts with "Bearer ", otherwise return it unchanged. -/
def pyRemoveBearer (s : String) : String :=
  if pyStartsWith s "Bearer " then String.mk (s.data.drop 7) else s

/-- Embedding of verify_token (auth.py lines 8-17).  cfgToken is the module
constant API_AUTH_TOKEN ("" when unset); authHeader is
request.headers.get("Authorization") (none when the header is absent, so the
Python default "" is Option.getD ""). -/
def verifyToken (cfgToken : String) (authHeader : Option String) : AuthResult :=
  if cfgToken = "" then AuthResult.httpErr 500 "Token da API nao configurado no servidor"
  else if pyStartsWith (authHeader.getD "") "Bearer " = false then
    AuthResult.httpErr 401 "Token ausente"
  else if pyStrip (pyRemoveBearer (authHeader.getD "")) ≠ cfgToken then
    AuthResult.httpErr 403 "Token inválido"
  else AuthResult.passed (pyStrip (pyRemoveBearer (authHeader.getD "")))

/- ── Capacity math (src/app/n8n.py lines 24-26 and 293-321). ── -/

def RESERVED_RAM_MB : ℚ := 768

def PER_INSTANCE_RAM_MB : ℚ := 384

/-- Python int() applied to a float/rational: truncation toward zero, i.e.
floor for nonnegative arguments and ceiling for negative arguments. -/
def pyInt (q : ℚ) : ℤ := if 0 ≤ q then ⌊q⌋ else ⌈q⌉

/-- Element of the list returned by list_n8n_containers, restricted to the
fields calculate_max_instances reads. -/
structure ContainerView where
  name : String
  status : String
deriving DecidableEq

/-- Result record of calculate_max_instances, restricted to the keys the
claims are about. -/
structure Capacity where
  maxInstances : ℤ
  activeInstances : ℕ
  canCreate : Bool
deriving DecidableEq

/-- Embedding of calculate_max_instances (n8n.py lines 293-321).
memTotalBytes is info["MemTotal"]; instances is the list_n8n_containers
result.  total_ram_mb = MemTotal / (1024*1024) is computed exactly over ℚ;
int() truncates toward zero as in Python. -/
def calculateMaxInstances (memTotalBytes : ℕ) (instances : List ContainerView) : Capacity :=
  let totalRamMb : ℚ := (memTotalBytes : ℚ) / (1024 * 1024)
  let availableRam : ℚ := totalRamMb - RESERVED_RAM_MB
  let maxI : ℤ := max 1 (pyInt (availableRam / PER_INSTANCE_RAM_MB))
  let active : ℕ := (instances.filter (fun c => c.status == "running")).length
  { maxInstances := maxI
    activeInstances := active
    canCreate := decide ((active : ℤ) < maxI) }

/- ── Job event store (src/app/job_status.py) and the events endpoint. ── -/

/-- Status field of a job event. -/
inductive EvStatus where
  | info
  | complete
  | error
deriving DecidableEq

/-- A job event: status, message, and the optional extra fields of the
terminal complete event (instance_id, url, location, container_status). -/
structure Event where
  status : EvStatus
  message : String
  extra : List (String × String)
deriving DecidableEq

/-- Effective start index of Redis LRANGE: negative values count from the
end and are clamped at 0. -/
def lrangeStart (n start : ℤ) : ℤ := if start < 0 then max 0 (n + start) else start

/-- Effective stop index of Redis LRANGE: negative values count from the end;
the result is clamped at n-1. -/
def lrangeStop (n stop : ℤ) : ℤ := min (if stop < 0 then n + stop else stop) (n - 1)

/-- Redis LRANGE semantics on a Lean list: the inclusive slice between the
effective start and stop indices, empty when the range is empty. -/
def lrange {α : Type} (l : List α) (start stop : ℤ) : List α :=
  let s := lrangeStart l.length start
  let e := lrangeStop l.length stop
  if e < s then []
  else (l.take (e.toNat + 1)).drop s.toNat

/-- Embedding of get_events_since (job_status.py lines 48-52):
lrange(key, index, -1) over the job's event list. -/
def getEventsSince (events : List Event) (index : ℤ) : List Event :=
  lrange events index (-1)

/-- Response record of GET /job/{job_id}/events. -/
structure JobEventsResp where
  state : String
  events : List Event
  nextIndex : ℤ
deriving DecidableEq

/-- Embedding of job_events (routes.py lines 220-231): 404 when the state key
is missing ("unknown"), otherwise the events from the given index and
next_index = since + len(events).  (The TTL-shortening side effect on terminal
states does not affect the returned value.) -/
def jobEvents (state : String) (storedEvents : List Event) (since : ℤ) :
    Except (Nat × String) JobEventsResp :=
  if state = "unknown" then Except.error (404, "Job não encontrado ou expirado")
  else
    let events := getEventsSince storedEvents since
    Except.ok { state := state, events := events, nextIndex := since + events.length }

/- ── Worker (src/app/worker.py, _process_job lines 36-160). ── -/

/-- Container status as observed by ct.reload(); the code compares the status
string against "running" and "exited", anything else falls through. -/
inductive CStatus where
  | running
  | exited
  | other
deriving DecidableEq

/-- Environment of the readiness loop: what the container runtime and the
network return at each attempt i.  logMarkerAt i is true when the last 10 log
lines contain one of the readiness markers (an exception while reading logs
behaves like a missing marker, worker.py lines 105-111); httpOkAt i is true
when the internal healthz GET returns HTTP 200 (any exception behaves like a
failure, lines 113-124). -/
structure ProbeEnv where
  statusAt : Nat → CStatus
  logMarkerAt : Nat → Bool
  httpOkAt : Nat → Bool
  logsTail : String

/-- Observable side effects of the worker, in order. -/
inductive Action where
  | sleepSecs (n : Nat)
  | reloadContainer (attempt : Nat)
  | logsCheck (attempt : Nat)
  | httpGet (url : String) (timeoutSecs : Nat) (attempt : Nat)
  | pullImage (image : String) (tag : String)
  | runContainer (cname : String)
  | removeContainer (cname : String)
  | ack
deriving DecidableEq

/-- How the readiness loop ended: a readiness marker or healthz 200 (break
with n8n_ready = True), the container exited (error + ack + return from
inside the loop), or the loop ran out of attempts. -/
inductive ProbeExit where
  | ready
  | exitedDead (logs : String)
  | timeout
deriving DecidableEq

/-- Loop bound hardcoded in worker.py line 100: for i in range(60). -/
def workerProbeAttempts : Nat := 60

/-- Sleep hardcoded in worker.py line 101: time.sleep(2). -/
def workerProbeSleep : Nat := 2

/-- Timeout hardcoded in worker.py line 118: urlopen(req, timeout=3). -/
def workerHttpTimeout : Nat := 3

/-- The URL probed by the fallback HTTP check, worker.py line 116:
http://{container_name(name)}:5678/healthz. -/
def internalHealthUrl (name : String) : String :=
  "http://" ++ containerName name ++ ":5678/healthz"

/-- Embedding of the readiness loop (worker.py lines 99-130).  Arguments are
the current attempt index i and the remaining fuel (the actual call has i = 0
and fuel = 60).  Returns the events pushed inside the loop, the observable
actions, and how the loop ended.  Each iteration sleeps 2 s and reloads; on
status running it pushes the "Verificando" heartbeat and checks the log
markers, and only when i ≥ 15 and i % 5 == 0 falls back to an HTTP GET on the
internal healthz URL with a 3 s timeout, HTTP 200 meaning ready. -/
def probeLoop (env : ProbeEnv) (name : String) : Nat → Nat → List Event × List Action × ProbeExit
  | _, 0 => ([], [], ProbeExit.timeout)
  | i, fuel + 1 =>
    match env.statusAt i with
    | CStatus.running =>
      let ev : Event := { status := EvStatus.info,
                          message := "Verificando N8N (" ++ toString (i + 1) ++ "/60)",
                          extra := [] }
      if env.logMarkerAt i then
        ([ev],
         [Action.sleepSecs workerProbeSleep, Action.reloadContainer i, Action.logsCheck i],
         ProbeExit.ready)
      else if 15 ≤ i ∧ i % 5 = 0 then
        if env.httpOkAt i then
          ([ev, { status := EvStatus.info, message := "N8N respondendo via HTTP", extra := [] }],
           [Action.sleepSecs workerProbeSleep, Action.reloadContainer i, Action.logsCheck i,
            Action.httpGet (internalHealthUrl name) workerHttpTimeout i],
           ProbeExit.ready)
        else
          match probeLoop env name (i + 1) fuel with
          | (evs, acts, ex) =>
            (ev :: evs,
             Action.sleepSecs workerProbeSleep :: Action.reloadContainer i :: Action.logsCheck i ::
               Action.httpGet (internalHealthUrl name) workerHttpTimeout i :: acts,
             ex)
      else
        match probeLoop env name (i + 1) fuel with
        | (evs, acts, ex) =>
          (ev :: evs,
           Action.sleepSecs workerProbeSleep :: Action.reloadContainer i :: Action.logsCheck i :: acts,
           ex)
    | CStatus.exited =>
      ([],
       [Action.sleepSecs workerProbeSleep, Action.reloadContainer i],
       ProbeExit.exitedDead env.logsTail)
    | CStatus.other =>
      match probeLoop env name (i + 1) fuel with
      | (evs, acts, ex) =>
        (evs, Action.sleepSecs workerProbeSleep :: Action.reloadContainer i :: acts, ex)

/-- Per-job environment of _process_job: the message payload fields and the
outcomes of the runtime calls (dupExists is whether get_container finds a
container of that name; pullErr and runErr are the exceptions raised by
images.pull and containers.run, none meaning success). -/
structure JobEnv where
  name : String
  version : String
  dupExists : Bool
  pullErr : Option String
  runErr : Option String
  probe : ProbeEnv

/-- What one _process_job call produced: the events appended to the job, the
observable actions, the number of basic_ack calls, and the final job state. -/
structure JobResult where
  events : List Event
  trace : List Action
  acks : Nat
  finalState : String

/-- Terminal complete event built at worker.py lines 144-151. -/
def completeEvent (name : String) : Event :=
  { status := EvStatus.complete, message := "Instancia N8N criada com sucesso!",
    extra := [("instance_id", name), ("url", instanceUrl name), ("location", "vinhedo"),
              ("container_status", "running")] }

/-- Embedding of _process_job (worker.py lines 36-160): duplicate guard, image
pull, container run, readiness loop, SSL grace sleep, terminal event, single
ack.  The Redis writes (push_event/set_state) are modelled as total; the
worker's catch-all except branch is therefore never taken. -/
def processJob (env : JobEnv) : JobResult :=
  if env.dupExists then
    { events := [{ status := EvStatus.error,
                   message := "Instancia '" ++ env.name ++ "' ja existe", extra := [] }],
      trace := [Action.ack], acks := 1, finalState := "error" }
  else
    let imageTag := N8N_IMAGE ++ ":" ++ env.version
    let ev1 : Event := { status := EvStatus.info,
                         message := "Baixando imagem " ++ imageTag ++ "...", extra := [] }
    match env.pullErr with
    | some e =>
      { events := [ev1,
          { status := EvStatus.error, message := "Erro ao baixar imagem: " ++ e, extra := [] }],
        trace := [Action.pullImage N8N_IMAGE env.version, Action.ack],
        acks := 1, finalState := "error" }
    | none =>
      match env.runErr with
      | some e =>
        { events := [ev1,
            { status := EvStatus.info, message := "Imagem pronta", extra := [] },
            { status := EvStatus.info, message := "Criando container N8N...", extra := [] },
            { status := EvStatus.error, message := "Erro ao criar container: " ++ e, extra := [] }],
          trace := [Action.pullImage N8N_IMAGE env.version,
                    Action.runContainer (containerName env.name), Action.ack],
          acks := 1, finalState := "error" }
      | none =>
        let preEvents : List Event := [ev1,
          { status := EvStatus.info, message := "Imagem pronta", extra := [] },
          { status := EvStatus.info, message := "Criando container N8N...", extra := [] },
          { status := EvStatus.info, message := "Container criado, iniciando N8N...", extra := [] },
          { status := EvStatus.info, message := "Aguardando instancia ficar disponivel...", extra := [] }]
        let preTrace : List Action := [Action.pullImage N8N_IMAGE env.version,
                                       Action.runContainer (containerName env.name)]
        match probeLoop env.probe env.name 0 workerProbeAttempts with
        | (pevs, pacts, ProbeExit.ready) =>
          { events := preEvents ++ pevs ++
              [{ status := EvStatus.info, message := "Configurando SSL via Traefik...", extra := [] },
               completeEvent env.name],
            trace := preTrace ++ pacts ++ [Action.sleepSecs 5, Action.ack],
            acks := 1, finalState := "complete" }
        | (pevs, pacts, ProbeExit.exitedDead logs) =>
          { events := preEvents ++ pevs ++
              [{ status := EvStatus.error, message := "Container parou.\n" ++ logs, extra := [] }],
            trace := preTrace ++ pacts ++ [Action.ack],
            acks := 1, finalState := "error" }
        | (pevs, pacts, ProbeExit.timeout) =>
          { events := preEvents ++ pevs ++
              [{ status := EvStatus.error,
                 message := "N8N nao iniciou em 2 minutos.\n" ++ env.probe.logsTail, extra := [] }],
            trace := preTrace ++ pacts ++ [Action.ack],
            acks := 1, finalState := "error" }

/-- Test for a terminal event: status complete or error. -/
def isTerminalB (e : Event) : Bool :=
  e.status == EvStatus.complete || e.status == EvStatus.error

/-- Embedding of the SSE follower event_generator (routes.py lines 334-357)
applied to the job's eventual event sequence: it yields each event in index
order and returns right after yielding the first event whose status is
complete or error. -/
def followEmit : List Event → List Event
  | [] => []
  | e :: rest => e :: (if isTerminalB e then [] else followEmit rest)

/-- Boolean test for a sleep action. -/
def isSleepA : Action → Bool
  | Action.sleepSecs _ => true
  | _ => false

/-- Boolean test for an HTTP GET action against the given URL. -/
def isHttpGetTo (u : String) : Action → Bool
  | Action.httpGet v _ _ => v == u
  | _ => false

/-- Boolean test for a container-removal action. -/
def isRemoveA : Action → Bool
  | Action.removeContainer _ => true
  | _ => false

/-- Boolean success test for Except results. -/
def isOkE {ε α : Type} : Except ε α → Bool
  | Except.ok _ => true
  | Except.error _ => false

/-- The properties the amended C5 asserts of every observable action of the
readiness loop: sleeps are always 2 seconds, HTTP GETs only target the
internal healthz URL with a 3 second timeout at attempts j ≥ 15 with
j % 5 == 0 while the container is running, and the loop never removes a
container. -/
def GoodAct (env : ProbeEnv) (name : String) (a : Action) : Prop :=
  (∀ n, a = Action.sleepSecs n → n = workerProbeSleep)
  ∧ (∀ u t j, a = Action.httpGet u t j →
      u = internalHealthUrl name ∧ t = workerHttpTimeout ∧ 15 ≤ j ∧ j % 5 = 0
      ∧ env.statusAt j = CStatus.running)
  ∧ isRemoveA a = false

/-- Probe environment in which the container is always running but never
becomes ready (no log marker, no healthz 200). -/
def stuckProbe : ProbeEnv :=
  { statusAt := fun _ => CStatus.running
    logMarkerAt := fun _ => false
    httpOkAt := fun _ => false
    logsTail := "" }

/-- Job environment in which the container run call fails with reason
"boom". -/
def runFailEnv : JobEnv :=
  { name := "bob", version := "latest", dupExists := false, pullErr := none,
    runErr := some "boom", probe := stuckProbe }

/- ── Container-lifecycle state (src/app/n8n.py lines 61-166, 218-246). ── -/

/-- A managed container as the runtime stores it: docker name, environment
(the Config.Env "K=V" entries as key-value pairs; every key the code writes
contains no '=', so str.partition("=") recovers exactly these pairs), labels,
status string and image tag. -/
structure Container where
  cname : String
  env : List (String × String)
  labels : List (String × String)
  status : String
  imageTag : String
deriving DecidableEq

/-- The container runtime's state: containers and named volumes. -/
structure DockerState where
  containers : List Container
  volumes : List String
deriving DecidableEq

/-- docker client.containers.get by container name (names are unique in
docker; the model returns the first match). -/
def getContainerSt (st : DockerState) (cname : String) : Option Container :=
  st.containers.find? (fun c => c.cname == cname)

/-- Embedding of extract_encryption_key (n8n.py lines 218-224): first env
entry whose key is N8N_ENCRYPTION_KEY, "" when there is none. -/
def extractEncryptionKey : List (String × String) → String
  | [] => ""
  | kv :: rest => if kv.1 = "N8N_ENCRYPTION_KEY" then kv.2 else extractEncryptionKey rest

/-- Dict lookup over an association list (Python dict .get(k)). -/
def lookupKV : List (String × String) → String → Option String
  | [], _ => none
  | kv :: rest, k => if kv.1 = k then some kv.2 else lookupKV rest k

/-- Dict assignment for a key that is present (labels["app.created_at"] = v):
replace the value in place. -/
def setKV (l : List (String × String)) (k v : String) : List (String × String) :=
  l.map (fun kv => if kv.1 = k then (k, v) else kv)

/-- Embedding of build_env (n8n.py lines 61-100), in source order. -/
def buildEnv (name encryptionKey : String) : List (String × String) :=
  [("N8N_HOST", "0.0.0.0"),
   ("N8N_PORT", "5678"),
   ("N8N_PROTOCOL", PROTOCOL),
   ("N8N_EDITOR_BASE_URL", PROTOCOL ++ "://" ++ name ++ "." ++ BASE_DOMAIN ++ "/"),
   ("N8N_ENCRYPTION_KEY", encryptionKey),
   ("WEBHOOK_URL", PROTOCOL ++ "://" ++ name ++ "." ++ BASE_DOMAIN ++ "/"),
   ("GENERIC_TIMEZONE", DEFAULT_TIMEZONE),
   ("N8N_ENFORCE_SETTINGS_FILE_PERMISSIONS", "true"),
   ("N8N_SECURE_COOKIE", if SSL_ENABLED then "true" else "false"),
   ("N8N_LOG_LEVEL", "warn"),
   ("DB_SQLITE_POOL_SIZE", "4"),
   ("N8N_DIAGNOSTICS_ENABLED", "false"),
   ("N8N_BLOCK_ENV_ACCESS_IN_NODE", "true"),
   ("N8N_GIT_NODE_DISABLE_BARE_REPOS", "true"),
   ("EXECUTIONS_DATA_SAVE_ON_ERROR", "all"),
   ("EXECUTIONS_DATA_SAVE_ON_SUCCESS", "none"),
   ("EXECUTIONS_DATA_SAVE_ON_PROGRESS", "false"),
   ("EXECUTIONS_DATA_SAVE_MANUAL_EXECUTIONS", "false"),
   ("EXECUTIONS_DATA_PRUNE", "true"),
   ("EXECUTIONS_DATA_MAX_AGE", "24"),
   ("EXECUTIONS_DATA_PRUNE_MAX_COUNT", "100"),
   ("N8N_CONCURRENCY_PRODUCTION_LIMIT", "3"),
   ("NODE_OPTIONS", "--max-old-space-size=256"),
   ("N8N_TEMPLATES_ENABLED", "false"),
   ("N8N_VERSION_NOTIFICATIONS_ENABLED", "false"),
   ("N8N_PERSONALIZATION_ENABLED", "false"),
   ("N8N_HIRING_BANNER_ENABLED", "false"),
   ("N8N_COMMUNITY_PACKAGES_ENABLED", "true")]

/-- Embedding of build_traefik_labels (n8n.py lines 103-120); now is the
datetime.now(timezone.utc).isoformat() stamp taken at build time. -/
def buildTraefikLabels (name now : String) : List (String × String) :=
  [("traefik.enable", "true"),
   ("traefik.http.routers.n8n-" ++ name ++ ".rule",
      "Host(`" ++ name ++ "." ++ BASE_DOMAIN ++ "`)"),
   ("traefik.http.services.n8n-" ++ name ++ ".loadbalancer.server.port", "5678"),
   ("app.managed", "true"),
   ("app.type", "n8n"),
   ("app.instance", name),
   ("app.created_at", now)]
  ++ (if SSL_ENABLED then
        [("traefik.http.routers.n8n-" ++ name ++ ".entrypoints", "websecure"),
         ("traefik.http.routers.n8n-" ++ name ++ ".tls.certresolver", TRAEFIK_CERT_RESOLVER)]
      else
        [("traefik.http.routers.n8n-" ++ name ++ ".entrypoints", "web")])

/-- Named-volume creation performed by containers.run when the volume does
not yet exist. -/
def addVolume (vols : List String) (v : String) : List String :=
  if v ∈ vols then vols else v :: vols

/-- Embedding of create_container (n8n.py lines 123-147): pull, build env and
labels, override app.created_at when a truthy created_at is passed, run the
container attached to the named volume.  The callers below only create after
removing any container of the same name, so the run is modelled as
prepending the new container. -/
def createContainer (st : DockerState) (name version encryptionKey : String)
    (createdAt : Option String) (now : String) : DockerState × Container :=
  let labels0 := buildTraefikLabels name now
  let labels := match createdAt with
    | some s => if s ≠ "" then setKV labels0 "app.created_at" s else labels0
    | none => labels0
  let c : Container :=
    { cname := containerName name, env := buildEnv name encryptionKey, labels := labels,
      status := "running", imageTag := N8N_IMAGE ++ ":" ++ version }
  ({ containers := c :: st.containers, volumes := addVolume st.volumes ("n8n-data-" ++ name) }, c)

/-- container.remove(force=True) with the volume kept (rebuild path,
n8n.py line 244). -/
def removeContainerOnly (st : DockerState) (cname : String) : DockerState :=
  { st with containers := st.containers.filter (fun c => c.cname != cname) }

/-- Volume removal (volumes.get(...).remove(force=True)). -/
def removeVolumeIf (vols : List String) (v : String) : List String :=
  vols.filter (fun x => x != v)

/-- Embedding of remove_container (n8n.py lines 155-166): NotFound when the
container does not exist; otherwise remove container and data volume (a
missing volume is logged and swallowed). -/
def removeContainerSt (st : DockerState) (name : String) : Except Unit DockerState :=
  match getContainerSt st (containerName name) with
  | none => Except.error ()
  | some _ =>
    let st1 := removeContainerOnly st (containerName name)
    Except.ok { st1 with volumes := removeVolumeIf st1.volumes ("n8n-data-" ++ name) }

inductive RebuildErr where
  | notFound
  | missingKey
deriving DecidableEq

/-- Embedding of rebuild_container (n8n.py lines 236-246): read the old
container, extract the encryption key (failing before any removal when the
key is missing), remember the app.created_at label, force-remove the
container while keeping its volume, then create with the preserved key and
created_at.  The second component is the resulting runtime state; on error
the state is unchanged. -/
def rebuildContainer (st : DockerState) (instanceId version now : String) :
    Except RebuildErr Container × DockerState :=
  match getContainerSt st (containerName instanceId) with
  | none => (Except.error RebuildErr.notFound, st)
  | some old =>
    if extractEncryptionKey old.env = "" then (Except.error RebuildErr.missingKey, st)
    else
      let oldCreatedAt := lookupKV old.labels "app.created_at"
      let st1 := removeContainerOnly st (containerName instanceId)
      let res := createContainer st1 instanceId version (extractEncryptionKey old.env) oldCreatedAt now
      (Except.ok res.2, res.1)

/- ── HTTP intake handlers (src/app/routes.py). ── -/

/-- Result of a route handler: a JSON payload, a deliberate HTTPException, or
an exception the handler did not catch (which FastAPI turns into a plain 500
Internal Server Error response). -/
inductive HRes (α : Type) where
  | ok (val : α)
  | err (code : Nat) (detail : String)
  | raised (msg : String)
deriving DecidableEq

/-- Observable runtime/broker calls a route handler makes, in order. -/
inductive RAction where
  | dockerInfo
  | listContainers
  | getContainer (cname : String)
  | removeContainer (cname : String)
  | removeVolume (vname : String)
  | pullImage (image : String) (tag : String)
  | runContainer (cname : String)
  | initJob (jobId : String)
  | publish (jobId : String)
deriving DecidableEq

/-- Embedding of list_n8n_containers restricted to the fields the capacity
check reads: managed containers labelled app.type=n8n, with their instance
label and status. -/
def managedViews (st : DockerState) : List ContainerView :=
  (st.containers.filter (fun c => lookupKV c.labels "app.type" == some "n8n")).map
    (fun c => { name := (lookupKV c.labels "app.instance").getD "", status := c.status })

/-- State visible to the enqueue handler: the host memory reported by
client.info() and the container runtime. -/
structure ApiSt where
  memTotalBytes : Nat
  docker : DockerState

/-- Embedding of enqueue_instance (routes.py lines 177-217): read body fields
with defaults and strip, 400 on empty name, validate name and version
(ValueError becomes 400) before any runtime call, 409 when capacity is
exhausted, 400 when the container already exists, otherwise init the job and
publish.  The second component lists the runtime/broker calls made. -/
def enqueueInstance (st : ApiSt) (bodyName bodyVersion : Option String) (jobId : String) :
    HRes (String × String) × List RAction :=
  let name0 := pyStrip (bodyName.getD "")
  let version0 := pyStrip (bodyVersion.getD DEFAULT_N8N_VERSION)
  if name0 = "" then (HRes.err 400 "Nome obrigatório", [])
  else
    match validateInstanceName name0 with
    | Except.error m => (HRes.err 400 m, [])
    | Except.ok name =>
      match validateVersion version0 with
      | Except.error m => (HRes.err 400 m, [])
      | Except.ok _version =>
        let cap := calculateMaxInstances st.memTotalBytes (managedViews st.docker)
        if cap.canCreate = false then
          (HRes.err 409 ("VPS sem recursos. " ++ toString cap.activeInstances ++ "/"
             ++ toString cap.maxInstances ++ " instâncias ativas."),
           [RAction.dockerInfo, RAction.listContainers])
        else
          match getContainerSt st.docker (containerName name) with
          | some _ =>
            (HRes.err 400 ("Instância '" ++ name ++ "' já existe"),
             [RAction.dockerInfo, RAction.listContainers,
              RAction.getContainer (containerName name)])
          | none =>
            (HRes.ok (jobId, name),
             [RAction.dockerInfo, RAction.listContainers,
              RAction.getContainer (containerName name),
              RAction.initJob jobId, RAction.publish jobId])

/-- Embedding of create_instance (routes.py lines 237-277), the synchronous
create path: read body fields with defaults and strip, 400 on empty name,
validate name and version (ValueError becomes 400) before any runtime call,
409 when capacity is exhausted, 400 when the container already exists,
then generate a key and call create_container.  pullErr is the runtime's
response to images.pull for this tag: some e means the pull raises with
message e, which the handler does not catch (FastAPI answers 500). -/
def createInstance (st : ApiSt) (bodyName bodyVersion : Option String)
    (freshKey now : String) (pullErr : Option String) :
    HRes (String × String) × DockerState × List RAction :=
  let name0 := pyStrip (bodyName.getD "")
  let version0 := pyStrip (bodyVersion.getD DEFAULT_N8N_VERSION)
  if name0 = "" then (HRes.err 400 "Nome obrigatório", st.docker, [])
  else
    match validateInstanceName name0 with
    | Except.error m => (HRes.err 400 m, st.docker, [])
    | Except.ok name =>
      match validateVersion version0 with
      | Except.error m => (HRes.err 400 m, st.docker, [])
      | Except.ok version =>
        let cap := calculateMaxInstances st.memTotalBytes (managedViews st.docker)
        if cap.canCreate = false then
          (HRes.err 409 ("VPS sem recursos. " ++ toString cap.activeInstances ++ "/"
             ++ toString cap.maxInstances ++ " instâncias ativas."),
           st.docker, [RAction.dockerInfo, RAction.listContainers])
        else
          match getContainerSt st.docker (containerName name) with
          | some _ =>
            (HRes.err 400 ("Instância '" ++ name ++ "' já existe"), st.docker,
             [RAction.dockerInfo, RAction.listContainers,
              RAction.getContainer (containerName name)])
          | none =>
            match pullErr with
            | some e =>
              (HRes.raised e, st.docker,
               [RAction.dockerInfo, RAction.listContainers,
                RAction.getContainer (containerName name),
                RAction.pullImage N8N_IMAGE version])
            | none =>
              let res := createContainer st.docker name version freshKey none now
              (HRes.ok (name, instanceUrl name), res.1,
               [RAction.dockerInfo, RAction.listContainers,
                RAction.getContainer (containerName name),
                RAction.pullImage N8N_IMAGE version,
                RAction.runContainer (containerName name)])

/-- Response of the create-instance-stream intake (routes.py lines 280-332):
either an immediate single-frame SSE error generator that closes, or the
follower over the enqueued job (whose framing is followEmit). -/
inductive StreamResp where
  | sseError (msg : String)
  | follow (jobId : String)
deriving DecidableEq

/-- Embedding of the intake part of create_instance_stream (routes.py lines
280-332): the name and version query parameters are validated first
(a ValueError becomes a single SSE error frame, not a 400), then the
capacity and duplicate fast-fail checks run, then the job is initialized and
published and the follower starts.  The publish step is modelled as total;
its failure would emit one more sseError variant and makes no further
runtime call. -/
def createInstanceStream (st : ApiSt) (qname qversion : String) (jobId : String) :
    StreamResp × List RAction :=
  match validateInstanceName qname with
  | Except.error m => (StreamResp.sseError m, [])
  | Except.ok name =>
    match validateVersion qversion with
    | Except.error m => (StreamResp.sseError m, [])
    | Except.ok _version =>
      let cap := calculateMaxInstances st.memTotalBytes (managedViews st.docker)
      if cap.canCreate = false then
        (StreamResp.sseError ("VPS sem recursos. " ++ toString cap.activeInstances ++ "/"
           ++ toString cap.maxInstances ++ " instâncias ativas."),
         [RAction.dockerInfo, RAction.listContainers])
      else
        match getContainerSt st.docker (containerName name) with
        | some _ =>
          (StreamResp.sseError ("Instância '" ++ name ++ "' já existe"),
           [RAction.dockerInfo, RAction.listContainers,
            RAction.getContainer (containerName name)])
        | none =>
          (StreamResp.follow jobId,
           [RAction.dockerInfo, RAction.listContainers,
            RAction.getContainer (containerName name),
            RAction.initJob jobId, RAction.publish jobId])

/-- Embedding of reset_instance (routes.py lines 424-442): the path
instance_id and the body version are used as-is — neither
validate_instance_name nor validate_version is called — the container and
volume are removed (404 when missing) and create_container is called with a
fresh key and the raw version.  pullErr is the runtime's response to
images.pull for this tag: some e means the pull raises with message e after
the removal has already happened; the handler does not catch it (FastAPI
answers 500). -/
def resetInstance (st : DockerState) (instanceId : String) (bodyVersion : Option String)
    (freshKey now : String) (pullErr : Option String) :
    HRes (String × String) × DockerState × List RAction :=
  let version := bodyVersion.getD "latest"
  match getContainerSt st (containerName instanceId) with
  | none =>
    (HRes.err 404 "Instância não encontrada", st,
     [RAction.getContainer (containerName instanceId)])
  | some _ =>
    let st1 := removeContainerOnly st (containerName instanceId)
    let st2 := { st1 with volumes := removeVolumeIf st1.volumes ("n8n-data-" ++ instanceId) }
    match pullErr with
    | some e =>
      (HRes.raised e, st2,
       [RAction.getContainer (containerName instanceId),
        RAction.removeContainer (containerName instanceId),
        RAction.removeVolume ("n8n-data-" ++ instanceId),
        RAction.pullImage N8N_IMAGE version])
    | none =>
      let res := createContainer st2 instanceId version freshKey none now
      (HRes.ok ("Instância resetada", instanceId), res.1,
       [RAction.getContainer (containerName instanceId),
        RAction.removeContainer (containerName instanceId),
        RAction.removeVolume ("n8n-data-" ++ instanceId),
        RAction.pullImage N8N_IMAGE version,
        RAction.runContainer (containerName instanceId)])

/- ── Eviction sweeper (src/app/cleanup.py). ── -/

/-- An element of list_n8n_containers() as the sweeper reads it: the
app.instance label and the computed age_days (None when no timestamp could
be parsed). -/
structure InstView where
  instanceId : String
  ageDays : Option Int
deriving DecidableEq

/-- A Python runtime error. -/
inductive PyError where
  | nameError (missing : String)
deriving DecidableEq

/-- Embedding of _run_cleanup (cleanup.py lines 14-35).  Its first statement,
line 16, evaluates datetime.now(timezone.utc), but cleanup.py imports only
threading, two config values, the logger and two n8n helpers — it never
imports datetime, and the name is not otherwise in the module's globals or
builtins.  Python name resolution therefore raises NameError at line 16,
before list_n8n_containers is called and before the removal loop runs, so
the call performs no removal; the views and state arguments are what the
function would have read. -/
def runCleanup (_views : List InstView) (_st : DockerState) :
    Except PyError (DockerState × Nat) :=
  Except.error (PyError.nameError "datetime")

/-- The removal loop of _run_cleanup (cleanup.py lines 17-35) as it would
execute if line 16 did not raise: for each listed instance whose age_days is
present and at least CLEANUP_MAX_AGE_DAYS, call remove_container and count
the removal (a per-instance exception is caught and skipped). -/
def cleanupSweepBody (views : List InstView) (st : DockerState) : DockerState × Nat :=
  views.foldl
    (fun acc v =>
      match v.ageDays with
      | some age =>
        if age ≥ (CLEANUP_MAX_AGE_DAYS : Int) then
          match removeContainerSt acc.1 v.instanceId with
          | Except.ok st2 => (st2, acc.2 + 1)
          | Except.error _ => acc
        else acc
      | none => acc)
    (st, 0)

/-- Sample event list used by witnesses. -/
def sampleEvents : List Event :=
  [{ status := EvStatus.info, message := "Imagem pronta", extra := [] },
   { status := EvStatus.complete, message := "Instancia N8N criada com sucesso!", extra := [] }]

/-- Concrete managed container for the C3 witness: instance carol with an
encryption key and a created_at label. -/
def carolContainer : Container :=
  { cname := "n8n-carol"
    env := buildEnv "carol" "cafe1234cafe1234"
    labels := buildTraefikLabels "carol" "2025-01-01T00:00:00+00:00"
    status := "running"
    imageTag := N8N_IMAGE ++ ":1.100.0" }

/-- Runtime state holding only carol. -/
def carolState : DockerState :=
  { containers := [carolContainer], volumes := ["n8n-data-carol"] }

/-- Concrete managed container alice used by the C2 material. -/
def aliceContainer : Container :=
  { cname := "n8n-alice"
    env := buildEnv "alice" "k1k1k1k1"
    labels := buildTraefikLabels "alice" "2025-01-01T00:00:00+00:00"
    status := "running"
    imageTag := N8N_IMAGE ++ ":latest" }

/-- Runtime state holding only alice. -/
def aliceState : DockerState :=
  { containers := [aliceContainer], volumes := ["n8n-data-alice"] }

/-- Concrete managed container eve, older than the cleanup threshold. -/
def eveContainer : Container :=
  { cname := "n8n-eve"
    env := buildEnv "eve" "k2k2k2k2"
    labels := buildTraefikLabels "eve" "2025-10-01T00:00:00+00:00"
    status := "running"
    imageTag := N8N_IMAGE ++ ":latest" }

/-- Runtime state holding only eve. -/
def eveState : DockerState :=
  { containers := [eveContainer], volumes := ["n8n-data-eve"] }

/-- Listing view of eveState as the sweeper would read it: eve is 6 days
old, past the 5-day default threshold. -/
def eveViews : List InstView := [{ instanceId := "eve", ageDays := some 6 }]

/- ── Helper lemmas. ── -/

theorem ne_of_length_ne {s t : String} (h : s.length ≠ t.length) : s ≠ t :=
  fun he => h (congrArg String.length he)

theorem max_one_pyInt (q : ℚ) : max 1 (pyInt q) = max 1 ⌊q⌋ := by
  unfold pyInt
  by_cases h : 0 ≤ q
  · rw [if_pos h]
  · push_neg at h
    have hq0 : q ≤ ((0 : ℤ) : ℚ) := by exact_mod_cast h.le
    have hc : ⌈q⌉ ≤ 0 := Int.ceil_le.mpr hq0
    have hf : ⌊q⌋ ≤ 0 := (Int.floor_le_ceil q).trans hc
    rw [if_neg (not_le.mpr h)]
    rw [max_eq_left (hc.trans (by norm_num)), max_eq_left (hf.trans (by norm_num))]

theorem lrangeStart_nat (n : ℤ) (k : ℕ) : lrangeStart n (k : ℤ) = (k : ℤ) := by
  unfold lrangeStart
  rw [if_neg (by omega)]

theorem lrangeStop_neg_one (n : ℤ) : lrangeStop n (-1) = n - 1 := by
  unfold lrangeStop
  rw [if_pos (by omega)]
  have h : n + (-1) = n - 1 := by ring
  rw [h, min_self]

theorem lrange_from_nat {α : Type} (l : List α) (k : ℕ) :
    lrange l (k : ℤ) (-1) = l.drop k := by
  unfold lrange
  rw [lrangeStart_nat, lrangeStop_neg_one]
  by_cases hcase : (l.length : ℤ) - 1 < (k : ℤ)
  · rw [if_pos hcase]
    exact (List.drop_eq_nil_of_le (by omega)).symm
  · rw [if_neg hcase]
    have h1 : ((l.length : ℤ) - 1).toNat + 1 = l.length := by omega
    have h2 : ((k : ℤ)).toNat = k := by omega
    rw [h1, h2, List.take_length]

theorem getEventsSince_drop (events : List Event) (k : ℕ) :
    getEventsSince events (k : ℤ) = events.drop k :=
  lrange_from_nat events k

theorem matchesName_ne_empty {s : String} (h : matchesName s = true) : s ≠ "" := by
  intro he
  rw [he] at h
  exact absurd h (by decide)

theorem validate_ok_of_matches {s : String}
    (hm : matchesName (pyStrip (pyLower s)) = true) :
    validateInstanceName s = Except.ok (pyStrip (pyLower s)) := by
  have hne : ¬ (pyStrip (pyLower s) = "" ∨ matchesName (pyStrip (pyLower s)) = false) := by
    rintro (he | hf)
    · exact matchesName_ne_empty hm he
    · rw [hm] at hf; exact Bool.noConfusion hf
  unfold validateInstanceName
  rw [if_neg hne]

theorem validate_err_of_not_matches {s : String}
    (hm : matchesName (pyStrip (pyLower s)) = false) :
    validateInstanceName s =
      Except.error "Nome deve conter apenas letras minusculas, numeros e hifens (2-32 chars)" := by
  unfold validateInstanceName
  rw [if_pos (Or.inr hm)]

theorem probe_events_info (env : ProbeEnv) (name : String) :
    ∀ fuel i e, e ∈ (probeLoop env name i fuel).1 → e.status = EvStatus.info := by
  intro fuel
  induction fuel with
  | zero =>
    intro i e he
    simp [probeLoop] at he
  | succ n ih =>
    intro i e he
    rcases hrec : probeLoop env name (i + 1) n with ⟨evs, acts, ex⟩
    simp only [probeLoop, hrec] at he
    cases hst : env.statusAt i
    case running =>
      simp only [hst] at he
      by_cases hlm : env.logMarkerAt i = true
      · simp [hlm] at he
        rw [he]
      · have hlm2 : env.logMarkerAt i = false := by
          cases hx : env.logMarkerAt i with
          | true => exact absurd hx hlm
          | false => rfl
        by_cases hc : 15 ≤ i ∧ i % 5 = 0
        · by_cases hh : env.httpOkAt i = true
          · simp [hlm2, hc, hh] at he
            rcases he with he | he <;> rw [he]
          · have hh2 : env.httpOkAt i = false := by
              cases hx : env.httpOkAt i with
              | true => exact absurd hx hh
              | false => rfl
            simp [hlm2, hc, hh2] at he
            rcases he with he | he
            · rw [he]
            · exact ih (i + 1) e (by rw [hrec]; exact he)
        · simp [hlm2, hc] at he
          rcases he with he | he
          · rw [he]
          · exact ih (i + 1) e (by rw [hrec]; exact he)
    case exited =>
      simp [hst] at he
    case other =>
      simp only [hst] at he
      exact ih (i + 1) e (by rw [hrec]; exact he)

theorem goodAct_sleep (env : ProbeEnv) (name : String) :
    GoodAct env name (Action.sleepSecs workerProbeSleep) := by
  refine ⟨?_, ?_, rfl⟩
  · intro n h
    injection h with h1
    exact h1.symm
  · intro u t j h
    exact absurd h (by simp)

theorem goodAct_reload (env : ProbeEnv) (name : String) (i : Nat) :
    GoodAct env name (Action.reloadContainer i) := by
  refine ⟨?_, ?_, rfl⟩
  · intro n h
    exact absurd h (by simp)
  · intro u t j h
    exact absurd h (by simp)

theorem goodAct_logs (env : ProbeEnv) (name : String) (i : Nat) :
    GoodAct env name (Action.logsCheck i) := by
  refine ⟨?_, ?_, rfl⟩
  · intro n h
    exact absurd h (by simp)
  · intro u t j h
    exact absurd h (by simp)

theorem goodAct_http (env : ProbeEnv) (name : String) (j : Nat)
    (hj : 15 ≤ j) (hm : j % 5 = 0) (hs : env.statusAt j = CStatus.running) :
    GoodAct env name (Action.httpGet (internalHealthUrl name) workerHttpTimeout j) := by
  refine ⟨?_, ?_, rfl⟩
  · intro n h
    exact absurd h (by simp)
  · intro u t j2 h
    injection h with h1 h2 h3
    exact ⟨h1.symm, h2.symm, h3 ▸ hj, h3 ▸ hm, h3 ▸ hs⟩

theorem probe_trace_shape (env : ProbeEnv) (name : String) :
    ∀ fuel i a, a ∈ (probeLoop env name i fuel).2.1 → GoodAct env name a := by
  intro fuel
  induction fuel with
  | zero =>
    intro i a ha
    simp [probeLoop] at ha
  | succ n ih =>
    intro i a ha
    rcases hrec : probeLoop env name (i + 1) n with ⟨evs, acts, ex⟩
    simp only [probeLoop, hrec] at ha
    cases hst : env.statusAt i
    case running =>
      simp only [hst] at ha
      by_cases hlm : env.logMarkerAt i = true
      · simp [hlm] at ha
        rcases ha with ha | ha | ha
        · exact ha ▸ goodAct_sleep env name
        · exact ha ▸ goodAct_reload env name i
        · exact ha ▸ goodAct_logs env name i
      · have hlm2 : env.logMarkerAt i = false := by
          cases hx : env.logMarkerAt i with
          | true => exact absurd hx hlm
          | false => rfl
        by_cases hc : 15 ≤ i ∧ i % 5 = 0
        · by_cases hh : env.httpOkAt i = true
          · simp [hlm2, hc, hh] at ha
            rcases ha with ha | ha | ha | ha
            · exact ha ▸ goodAct_sleep env name
            · exact ha ▸ goodAct_reload env name i
            · exact ha ▸ goodAct_logs env name i
            · exact ha ▸ goodAct_http env name i hc.1 hc.2 hst
          · have hh2 : env.httpOkAt i = false := by
              cases hx : env.httpOkAt i with
              | true => exact absurd hx hh
              | false => rfl
            simp [hlm2, hc, hh2] at ha
            rcases ha with ha | ha | ha | ha | ha
            · exact ha ▸ goodAct_sleep env name
            · exact ha ▸ goodAct_reload env name i
            · exact ha ▸ goodAct_logs env name i
            · exact ha ▸ goodAct_http env name i hc.1 hc.2 hst
            · exact ih (i + 1) a (by rw [hrec]; exact ha)
        · simp [hlm2, hc] at ha
          rcases ha with ha | ha | ha | ha
          · exact ha ▸ goodAct_sleep env name
          · exact ha ▸ goodAct_reload env name i
          · exact ha ▸ goodAct_logs env name i
          · exact ih (i + 1) a (by rw [hrec]; exact ha)
    case exited =>
      simp [hst] at ha
      rcases ha with ha | ha
      · exact ha ▸ goodAct_sleep env name
      · exact ha ▸ goodAct_reload env name i
    case other =>
      simp only [hst] at ha
      simp at ha
      rcases ha with ha | ha | ha
      · exact ha ▸ goodAct_sleep env name
      · exact ha ▸ goodAct_reload env name i
      · exact ih (i + 1) a (by rw [hrec]; exact ha)

theorem probe_sleep_count (env : ProbeEnv) (name : String) :
    ∀ fuel i, ((probeLoop env name i fuel).2.1.countP isSleepA) ≤ fuel := by
  intro fuel
  induction fuel with
  | zero =>
    intro i
    simp [probeLoop]
  | succ n ih =>
    intro i
    rcases hrec : probeLoop env name (i + 1) n with ⟨evs, acts, ex⟩
    have hacts : acts.countP isSleepA ≤ n := by
      have := ih (i + 1)
      rw [hrec] at this
      exact this
    simp only [probeLoop, hrec]
    cases hst : env.statusAt i
    case running =>
      by_cases hlm : env.logMarkerAt i = true
      · simp [hlm, isSleepA, List.countP_cons]
      · have hlm2 : env.logMarkerAt i = false := by
          cases hx : env.logMarkerAt i with
          | true => exact absurd hx hlm
          | false => rfl
        by_cases hc : 15 ≤ i ∧ i % 5 = 0
        · by_cases hh : env.httpOkAt i = true
          · simp [hlm2, hc, hh, isSleepA, List.countP_cons]
          · have hh2 : env.httpOkAt i = false := by
              cases hx : env.httpOkAt i with
              | true => exact absurd hx hh
              | false => rfl
            simp [hlm2, hc, hh2, isSleepA, List.countP_cons]
            omega
        · simp [hlm2, hc, isSleepA, List.countP_cons]
          omega
    case exited =>
      simp [isSleepA, List.countP_cons]
    case other =>
      simp [isSleepA, List.countP_cons]
      omega

theorem getLast?_append_one {α : Type} (l1 l2 : List α) (a : α) :
    (l1 ++ l2 ++ [a]).getLast? = some a :=
  List.getLast?_concat _

theorem getLast?_append_two {α : Type} (l1 l2 : List α) (a b : α) :
    (l1 ++ l2 ++ [a, b]).getLast? = some b := by
  rw [show l1 ++ l2 ++ [a, b] = (l1 ++ l2 ++ [a]) ++ [b] by simp]
  exact List.getLast?_concat _

/- ── Claim theorems: C4, C5, C6. ── -/

/-- C4: for every job environment the worker appends exactly one terminal
event (complete or error) and it is the last event appended; and the SSE
follower emits the stored events in order, stopping right after the first
event whose status is complete or error. -/
theorem c4_single_terminal :
    (∀ env : JobEnv,
        (processJob env).events.countP isTerminalB = 1
      ∧ ∃ e, (processJob env).events.getLast? = some e ∧ isTerminalB e = true)
  ∧ (∀ l : List Event,
        followEmit l = l.takeWhile (fun e => !isTerminalB e) ++ (l.find? isTerminalB).toList) := by
  constructor
  · intro env
    unfold processJob
    by_cases hdup : env.dupExists = true
    · rw [if_pos hdup]
      exact ⟨by simp [isTerminalB], ⟨_, rfl, rfl⟩⟩
    · rw [if_neg hdup]
      cases hpull : env.pullErr with
      | some e =>
        exact ⟨by simp [isTerminalB], ⟨_, rfl, rfl⟩⟩
      | none =>
        cases hrun : env.runErr with
        | some e =>
          exact ⟨by simp [isTerminalB], ⟨_, rfl, rfl⟩⟩
        | none =>
          rcases hloop : probeLoop env.probe env.name 0 workerProbeAttempts with ⟨pevs, pacts, ex⟩
          have hinfo : pevs.countP isTerminalB = 0 := by
            rw [List.countP_eq_zero]
            intro ev hev
            have hi := probe_events_info env.probe env.name workerProbeAttempts 0 ev
              (by rw [hloop]; exact hev)
            simp [isTerminalB, hi]
          cases ex with
          | ready =>
            constructor
            · simp [List.countP_append, hinfo, isTerminalB, completeEvent]
            · exact ⟨completeEvent env.name, getLast?_append_two _ _ _ _, rfl⟩
          | exitedDead logs =>
            constructor
            · simp [List.countP_append, hinfo, isTerminalB]
            · exact ⟨_, getLast?_append_one _ _ _, rfl⟩
          | timeout =>
            constructor
            · simp [List.countP_append, hinfo, isTerminalB]
            · exact ⟨_, getLast?_append_one _ _ _, rfl⟩
  · intro l
    induction l with
    | nil => rfl
    | cons e rest ih =>
      by_cases h : isTerminalB e = true
      · simp [followEmit, h]
      · have hf : isTerminalB e = false := by
          cases hx : isTerminalB e with
          | true => exact absurd hx h
          | false => rfl
        simp [followEmit, hf, ih]

/-- C5 (amended): the worker's readiness loop runs a hardcoded 60 attempts
(not READINESS_MAX_ATTEMPTS) with a hardcoded 2 second sleep per attempt;
while the container is running the primary check is a log-marker scan, and an
HTTP GET is issued only at attempts j with j ≥ 15 and j % 5 == 0, against the
internal URL http://n8n-name:5678/healthz with a 3 second timeout, HTTP 200
meaning ready; no GET against the public https URL is ever made. -/
theorem c5_probe_actual (env : ProbeEnv) (name : String) (i fuel : Nat) :
    (∀ a, a ∈ (probeLoop env name i fuel).2.1 →
        (∀ n, a = Action.sleepSecs n → n = workerProbeSleep)
      ∧ (∀ u t j, a = Action.httpGet u t j →
          u = internalHealthUrl name ∧ t = workerHttpTimeout ∧ 15 ≤ j ∧ j % 5 = 0
          ∧ env.statusAt j = CStatus.running))
  ∧ (probeLoop env name i fuel).2.1.countP isSleepA ≤ fuel
  ∧ workerProbeAttempts = 60 ∧ workerProbeSleep = 2 ∧ workerHttpTimeout = 3 := by
  refine ⟨?_, probe_sleep_count env name fuel i, rfl, rfl, rfl⟩
  intro a ha
  have h := probe_trace_shape env name fuel i a ha
  exact ⟨h.1, h.2.1⟩

/-- Witness for c5_probe_actual: the loop on the stuck environment really
contains the internal healthz GET at attempt 15, and the theorem instantiated
there yields the asserted facts about it. -/
theorem c5_probe_actual_witness :
    "http://n8n-alice:5678/healthz" = internalHealthUrl "alice"
  ∧ 3 = workerHttpTimeout ∧ 15 ≤ 15 ∧ 15 % 5 = 0
  ∧ stuckProbe.statusAt 15 = CStatus.running := by
  have h := (c5_probe_actual stuckProbe "alice" 0 workerProbeAttempts).1
    (Action.httpGet "http://n8n-alice:5678/healthz" 3 15) (by decide)
  exact h.2 "http://n8n-alice:5678/healthz" 3 15 rfl

/-- Counterexample to C5 as stated: with the default configuration
READINESS_MAX_ATTEMPTS is 90 but the loop performs exactly 60 attempts, and
with a running-but-never-ready container the trace contains a GET against the
internal http healthz URL while containing no GET against the public
https subdomain URL. -/
theorem c5_counterexample :
    READINESS_MAX_ATTEMPTS = 90
  ∧ (probeLoop stuckProbe "alice" 0 workerProbeAttempts).2.1.countP isSleepA = 60
  ∧ (probeLoop stuckProbe "alice" 0 workerProbeAttempts).2.1.countP
      (isHttpGetTo (internalHealthUrl "alice")) ≠ 0
  ∧ (probeLoop stuckProbe "alice" 0 workerProbeAttempts).2.1.countP
      (isHttpGetTo ("https://alice." ++ BASE_DOMAIN ++ "/")) = 0 := by decide

/-- C6 (amended): when container creation fails the worker appends an error
event whose message carries the reason and acks the message, but it performs
no removal of the partial container. -/
theorem c6_create_failure (env : JobEnv) (e : String)
    (hdup : env.dupExists = false) (hpull : env.pullErr = none)
    (hrun : env.runErr = some e) :
    (processJob env).events.getLast?
        = some { status := EvStatus.error, message := "Erro ao criar container: " ++ e,
                 extra := [] }
  ∧ (processJob env).acks = 1
  ∧ (processJob env).trace.countP isRemoveA = 0 := by
  unfold processJob
  rw [if_neg (by simp [hdup])]
  rw [hpull, hrun]
  exact ⟨rfl, rfl, rfl⟩

/-- Witness for c6_create_failure at the concrete run-failure environment. -/
theorem c6_create_failure_witness :
    (processJob runFailEnv).events.getLast?
        = some { status := EvStatus.error, message := "Erro ao criar container: boom",
                 extra := [] }
  ∧ (processJob runFailEnv).acks = 1
  ∧ (processJob runFailEnv).trace.countP isRemoveA = 0 :=
  c6_create_failure runFailEnv "boom" rfl rfl rfl

/-- Counterexample to C6 as stated: on the concrete failed creation the error
event and the ack happen but the trace contains no container-removal action
at all, so no best-effort removal of the partial container is performed. -/
theorem c6_counterexample :
    (processJob runFailEnv).trace.countP isRemoveA = 0
  ∧ (processJob runFailEnv).trace ≠ []
  ∧ (processJob runFailEnv).finalState = "error" := by decide

/- ── Claim theorems: C10, C9, C7, C8. ── -/

/-- C10: instance-name validation first lowercases and strips the input,
accepts exactly when the normalized form matches
^[a-z0-9][a-z0-9-]{0,30}[a-z0-9]$, and returns the normalized name; in
particular the mixed-case, whitespace-padded input "Alice " is accepted and
normalizes to "alice". -/
theorem c10_validate_normalizes :
    (∀ s : String,
        (isOkE (validateInstanceName s) = true ↔ matchesName (pyStrip (pyLower s)) = true)
      ∧ (matchesName (pyStrip (pyLower s)) = true →
          validateInstanceName s = Except.ok (pyStrip (pyLower s))))
  ∧ validateInstanceName "Alice " = Except.ok "alice" := by
  constructor
  · intro s
    by_cases hm : matchesName (pyStrip (pyLower s)) = true
    · exact ⟨⟨fun _ => hm, fun _ => by rw [validate_ok_of_matches hm]; rfl⟩,
        fun _ => validate_ok_of_matches hm⟩
    · have hf : matchesName (pyStrip (pyLower s)) = false := by
        cases hx : matchesName (pyStrip (pyLower s)) with
        | true => exact absurd hx hm
        | false => rfl
      refine ⟨⟨fun h => ?_, fun h => absurd h hm⟩, fun h => absurd h hm⟩
      rw [validate_err_of_not_matches hf] at h
      simp [isOkE] at h
  · rfl

/-- C9: with no configured token every protected request gets 500; with a
configured token, a missing or non-Bearer Authorization header gets 401, a
Bearer token that differs (after strip) from the configured token gets 403,
and the dependency passes only the exact configured token. -/
theorem c9_auth_gate (cfg : String) (hdr : Option String) :
    (cfg = "" → verifyToken cfg hdr = AuthResult.httpErr 500 "Token da API nao configurado no servidor")
  ∧ (cfg ≠ "" → pyStartsWith (hdr.getD "") "Bearer " = false →
      verifyToken cfg hdr = AuthResult.httpErr 401 "Token ausente")
  ∧ (cfg ≠ "" → pyStartsWith (hdr.getD "") "Bearer " = true →
      pyStrip (pyRemoveBearer (hdr.getD "")) ≠ cfg →
      verifyToken cfg hdr = AuthResult.httpErr 403 "Token inválido")
  ∧ (∀ t, verifyToken cfg hdr = AuthResult.passed t →
      t = cfg ∧ cfg ≠ "" ∧ pyStartsWith (hdr.getD "") "Bearer " = true) := by
  refine ⟨?_, ?_, ?_, ?_⟩
  · intro h
    unfold verifyToken
    rw [if_pos h]
  · intro h hs
    unfold verifyToken
    rw [if_neg h, if_pos hs]
  · intro h hs hne
    have hc2 : ¬ (pyStartsWith (hdr.getD "") "Bearer " = false) := by
      rw [hs]; exact fun hcc => Bool.noConfusion hcc
    unfold verifyToken
    rw [if_neg h, if_neg hc2, if_pos hne]
  · intro t hpass
    unfold verifyToken at hpass
    by_cases h1 : cfg = ""
    · rw [if_pos h1] at hpass; cases hpass
    · rw [if_neg h1] at hpass
      by_cases h2 : pyStartsWith (hdr.getD "") "Bearer " = false
      · rw [if_pos h2] at hpass; cases hpass
      · rw [if_neg h2] at hpass
        by_cases h3 : pyStrip (pyRemoveBearer (hdr.getD "")) ≠ cfg
        · rw [if_pos h3] at hpass; cases hpass
        · rw [if_neg h3] at hpass
          push_neg at h3
          have ht : t = pyStrip (pyRemoveBearer (hdr.getD "")) := by
            cases hpass; rfl
          refine ⟨ht.trans h3, h1, ?_⟩
          cases hb : pyStartsWith (hdr.getD "") "Bearer " with
          | true => rfl
          | false => exact absurd hb h2

/-- Witness for c9_auth_gate: a wrong Bearer token against a configured
token is refused with 403. -/
theorem c9_auth_gate_witness :
    verifyToken "secret" (some "Bearer nope") = AuthResult.httpErr 403 "Token inválido" :=
  (c9_auth_gate "secret" (some "Bearer nope")).2.2.1 (by decide) (by decide) (by decide)

/-- C7: the capacity snapshot has max_instances = max(1, floor((total_ram_mb
− reserved_ram_mb) / per_instance_ram_mb)), hence max_instances ≥ 1;
active_instances counts exactly the listed containers whose status is
"running"; and can_create holds iff active_instances < max_instances. -/
theorem c7_capacity (memTotalBytes : ℕ) (instances : List ContainerView) :
    (calculateMaxInstances memTotalBytes instances).maxInstances
        = max 1 ⌊((memTotalBytes : ℚ) / (1024 * 1024) - RESERVED_RAM_MB) / PER_INSTANCE_RAM_MB⌋
  ∧ 1 ≤ (calculateMaxInstances memTotalBytes instances).maxInstances
  ∧ (calculateMaxInstances memTotalBytes instances).activeInstances
        = (instances.filter (fun c => c.status == "running")).length
  ∧ ((calculateMaxInstances memTotalBytes instances).canCreate = true ↔
        ((calculateMaxInstances memTotalBytes instances).activeInstances : ℤ)
          < (calculateMaxInstances memTotalBytes instances).maxInstances) := by
  refine ⟨?_, ?_, rfl, ?_⟩
  · exact max_one_pyInt _
  · exact le_max_left 1 _
  · simp [calculateMaxInstances]

/-- C8: reading events from index k and then from k + (number read) returns
exactly the suffix of the event list from k, with nothing lost and nothing
duplicated; the events endpoint reports next_index = since + len(events). -/
theorem c8_resume (storedEvents : List Event) (k : ℕ) (hk : k ≤ storedEvents.length) :
    getEventsSince storedEvents (k : ℤ)
        ++ getEventsSince storedEvents ((k : ℤ) + (getEventsSince storedEvents (k : ℤ)).length)
      = storedEvents.drop k
  ∧ (∀ st : String, st ≠ "unknown" →
      jobEvents st storedEvents (k : ℤ)
        = Except.ok { state := st, events := storedEvents.drop k,
                      nextIndex := (k : ℤ) + (storedEvents.drop k).length }) := by
  have h1 : getEventsSince storedEvents (k : ℤ) = storedEvents.drop k :=
    getEventsSince_drop _ _
  constructor
  · rw [h1]
    have h2 : ((k : ℤ) + ((storedEvents.drop k).length : ℤ))
        = (((k + (storedEvents.drop k).length : ℕ)) : ℤ) := by push_cast; ring
    rw [h2, getEventsSince_drop]
    rw [List.length_drop]
    have h4 : k + (storedEvents.length - k) = storedEvents.length := by omega
    rw [h4, List.drop_length, List.append_nil]
  · intro st hst
    unfold jobEvents
    rw [if_neg hst, h1]

/-- Witness for c8_resume at the concrete two-event list and k = 1. -/
theorem c8_resume_witness :
    1 ≤ sampleEvents.length ∧
    (getEventsSince sampleEvents (1 : ℤ)
        ++ getEventsSince sampleEvents ((1 : ℤ) + (getEventsSince sampleEvents (1 : ℤ)).length)
      = sampleEvents.drop 1
    ∧ (∀ st : String, st ≠ "unknown" →
        jobEvents st sampleEvents (1 : ℤ)
          = Except.ok { state := st, events := sampleEvents.drop 1,
                        nextIndex := (1 : ℤ) + (sampleEvents.drop 1).length })) :=
  ⟨by decide, c8_resume sampleEvents 1 (by decide)⟩

/- ── Claim theorems: C3, C2, C1. ── -/

theorem extract_buildEnv (name key : String) :
    extractEncryptionKey (buildEnv name key) = key := rfl

theorem lookup_setKV (l : List (String × String)) (k v : String)
    (h : lookupKV l k ≠ none) : lookupKV (setKV l k v) k = some v := by
  induction l with
  | nil => simp [lookupKV] at h
  | cons kv rest ih =>
    by_cases hk : kv.1 = k
    · simp [setKV, lookupKV, hk]
    · have h2 : lookupKV rest k ≠ none := by
        simpa [lookupKV, hk] using h
      have hs : setKV (kv :: rest) k v = kv :: setKV rest k v := by
        simp [setKV, hk]
      rw [hs]
      simp only [lookupKV]
      rw [if_neg hk]
      exact ih h2

theorem created_in_labels (name now : String) :
    lookupKV (buildTraefikLabels name now) "app.created_at" = some now := by
  have h2 : ("traefik.http.routers.n8n-" ++ name ++ ".rule") ≠ "app.created_at" := by
    apply ne_of_length_ne
    rw [String.length_append, String.length_append]
    have e1 : ("traefik.http.routers.n8n-").length = 25 := rfl
    have e2 : (".rule").length = 5 := rfl
    have e3 : ("app.created_at").length = 14 := rfl
    omega
  have h3 : ("traefik.http.services.n8n-" ++ name ++ ".loadbalancer.server.port")
      ≠ "app.created_at" := by
    apply ne_of_length_ne
    rw [String.length_append, String.length_append]
    have e1 : ("traefik.http.services.n8n-").length = 26 := rfl
    have e2 : (".loadbalancer.server.port").length = 25 := rfl
    have e3 : ("app.created_at").length = 14 := rfl
    omega
  simp [buildTraefikLabels, lookupKV, h2, h3]

/-- C3: a rebuild of an instance whose container carries an encryption key
succeeds and the new container carries the same encryption key and the same
app.created_at label byte-for-byte; when the key is absent the rebuild fails
with the missing-key error and the runtime state is unchanged — in
particular the old container is not removed. -/
theorem c3_rebuild (st : DockerState) (iid version now s : String) (old : Container)
    (hget : getContainerSt st (containerName iid) = some old) :
    (extractEncryptionKey old.env ≠ "" →
      lookupKV old.labels "app.created_at" = some s → s ≠ "" →
      ∃ c, (rebuildContainer st iid version now).1 = Except.ok c
        ∧ extractEncryptionKey c.env = extractEncryptionKey old.env
        ∧ lookupKV c.labels "app.created_at" = some s)
  ∧ (extractEncryptionKey old.env = "" →
      (rebuildContainer st iid version now).1 = Except.error RebuildErr.missingKey
    ∧ (rebuildContainer st iid version now).2 = st) := by
  constructor
  · intro hkey hlab hs
    unfold rebuildContainer
    rw [hget]
    simp only [if_neg hkey]
    rw [hlab]
    simp only [createContainer]
    rw [if_pos hs]
    refine ⟨_, rfl, ?_, ?_⟩
    · exact extract_buildEnv iid (extractEncryptionKey old.env)
    · apply lookup_setKV
      rw [created_in_labels]
      exact fun hc => Option.noConfusion hc
  · intro hkey
    unfold rebuildContainer
    rw [hget]
    constructor <;> simp [hkey]

/-- Witness for c3_rebuild: rebuilding carol to 1.123.20 succeeds, the new
container carries carol's key and her original created_at label. -/
theorem c3_rebuild_witness :
    ∃ c, (rebuildContainer carolState "carol" "1.123.20" "2026-01-01T00:00:00+00:00").1
          = Except.ok c
      ∧ extractEncryptionKey c.env = extractEncryptionKey carolContainer.env
      ∧ lookupKV c.labels "app.created_at" = some "2025-01-01T00:00:00+00:00" :=
  (c3_rebuild carolState "carol" "1.123.20" "2026-01-01T00:00:00+00:00"
      "2025-01-01T00:00:00+00:00" carolContainer (by decide)).1
    (by decide) (by decide) (by decide)

/-- C2 (amended): the enqueue-instance, create-instance and
create-instance-stream intake paths reject any invalid name or version with
a validation error — HTTP 400 on the JSON paths, a single SSE error frame on
the stream path — before making any container-runtime or broker call.  The
reset path performs no validation: it removes the existing container and
volume and issues the image pull with the raw body version, so an invalid
version surfaces only as the uncaught pull exception (a 500), never as a
validation error. -/
theorem c2_validation (st : ApiSt) (bn bv : Option String) (jid : String)
    (key now : String) (perr : Option String) (qn qv : String) :
    ((pyStrip (bn.getD "") = ""
      ∨ isOkE (validateInstanceName (pyStrip (bn.getD ""))) = false
      ∨ isOkE (validateVersion (pyStrip (bv.getD DEFAULT_N8N_VERSION))) = false) →
      ((∃ m, (enqueueInstance st bn bv jid).1 = HRes.err 400 m)
        ∧ (enqueueInstance st bn bv jid).2 = [])
      ∧ ((∃ m, (createInstance st bn bv key now perr).1 = HRes.err 400 m)
        ∧ (createInstance st bn bv key now perr).2.2 = []))
  ∧ ((isOkE (validateInstanceName qn) = false ∨ isOkE (validateVersion qv) = false) →
      (∃ m, (createInstanceStream st qn qv jid).1 = StreamResp.sseError m)
    ∧ (createInstanceStream st qn qv jid).2 = [])
  ∧ (∀ st2 iid bv2, (getContainerSt st2 (containerName iid)).isSome = true →
      (∀ e, (resetInstance st2 iid bv2 key now (some e)).1 = HRes.raised e
        ∧ RAction.removeContainer (containerName iid)
            ∈ (resetInstance st2 iid bv2 key now (some e)).2.2
        ∧ RAction.pullImage N8N_IMAGE (bv2.getD "latest")
            ∈ (resetInstance st2 iid bv2 key now (some e)).2.2)
      ∧ ((resetInstance st2 iid bv2 key now none).1 = HRes.ok ("Instância resetada", iid)
        ∧ RAction.pullImage N8N_IMAGE (bv2.getD "latest")
            ∈ (resetInstance st2 iid bv2 key now none).2.2)) := by
  refine ⟨?_, ?_, ?_⟩
  · intro h
    constructor
    · unfold enqueueInstance
      by_cases h0 : pyStrip (bn.getD "") = ""
      · rw [if_pos h0]
        exact ⟨⟨_, rfl⟩, rfl⟩
      · rw [if_neg h0]
        cases hv : validateInstanceName (pyStrip (bn.getD "")) with
        | error m => exact ⟨⟨m, rfl⟩, rfl⟩
        | ok name =>
          cases hw : validateVersion (pyStrip (bv.getD DEFAULT_N8N_VERSION)) with
          | error m2 => exact ⟨⟨m2, rfl⟩, rfl⟩
          | ok v =>
            rcases h with h | h | h
            · exact absurd h h0
            · rw [hv] at h
              simp [isOkE] at h
            · rw [hw] at h
              simp [isOkE] at h
    · unfold createInstance
      by_cases h0 : pyStrip (bn.getD "") = ""
      · rw [if_pos h0]
        exact ⟨⟨_, rfl⟩, rfl⟩
      · rw [if_neg h0]
        cases hv : validateInstanceName (pyStrip (bn.getD "")) with
        | error m => exact ⟨⟨m, rfl⟩, rfl⟩
        | ok name =>
          cases hw : validateVersion (pyStrip (bv.getD DEFAULT_N8N_VERSION)) with
          | error m2 => exact ⟨⟨m2, rfl⟩, rfl⟩
          | ok v =>
            rcases h with h | h | h
            · exact absurd h h0
            · rw [hv] at h
              simp [isOkE] at h
            · rw [hw] at h
              simp [isOkE] at h
  · intro h
    unfold createInstanceStream
    cases hv : validateInstanceName qn with
    | error m => exact ⟨⟨m, rfl⟩, rfl⟩
    | ok name =>
      cases hw : validateVersion qv with
      | error m2 => exact ⟨⟨m2, rfl⟩, rfl⟩
      | ok v =>
        rcases h with h | h
        · rw [hv] at h
          simp [isOkE] at h
        · rw [hw] at h
          simp [isOkE] at h
  · intro st2 iid bv2 hsome
    rcases hc : getContainerSt st2 (containerName iid) with _ | c
    · rw [hc] at hsome
      simp [Option.isSome] at hsome
    · constructor
      · intro e
        unfold resetInstance
        rw [hc]
        exact ⟨rfl, by simp, by simp⟩
      · unfold resetInstance
        rw [hc]
        exact ⟨rfl, by simp⟩

/-- Witness for c2_validation: the invalid name "Alice!" is rejected by the
enqueue and create paths with 400 and no runtime call, the invalid query
name "bob!" is rejected by the stream path with an SSE error frame and no
runtime call, and the reset path on the existing alice removes the container
and reaches the image pull with the invalid raw version "EVIL", which raises
and surfaces as the uncaught 500. -/
theorem c2_validation_witness :
    (((∃ m, (enqueueInstance ⟨4294967296, aliceState⟩ (some "Alice!") (some "latest") "jid-1").1
          = HRes.err 400 m)
      ∧ (enqueueInstance ⟨4294967296, aliceState⟩ (some "Alice!") (some "latest") "jid-1").2 = [])
    ∧ ((∃ m, (createInstance ⟨4294967296, aliceState⟩ (some "Alice!") (some "latest")
            "freshkey" "2026-01-01T00:00:00+00:00" (some "manifest unknown")).1 = HRes.err 400 m)
      ∧ (createInstance ⟨4294967296, aliceState⟩ (some "Alice!") (some "latest")
            "freshkey" "2026-01-01T00:00:00+00:00" (some "manifest unknown")).2.2 = []))
  ∧ ((∃ m, (createInstanceStream ⟨4294967296, aliceState⟩ "bob!" "latest" "jid-1").1
          = StreamResp.sseError m)
    ∧ (createInstanceStream ⟨4294967296, aliceState⟩ "bob!" "latest" "jid-1").2 = [])
  ∧ ((resetInstance aliceState "alice" (some "EVIL") "freshkey" "2026-01-01T00:00:00+00:00"
        (some "manifest unknown")).1 = HRes.raised "manifest unknown"
    ∧ RAction.pullImage N8N_IMAGE "EVIL"
        ∈ (resetInstance aliceState "alice" (some "EVIL") "freshkey" "2026-01-01T00:00:00+00:00"
            (some "manifest unknown")).2.2) := by
  have h := c2_validation ⟨4294967296, aliceState⟩ (some "Alice!") (some "latest") "jid-1"
    "freshkey" "2026-01-01T00:00:00+00:00" (some "manifest unknown") "bob!" "latest"
  refine ⟨h.1 (by decide), h.2.1 (by decide), ?_⟩
  have hr := (h.2.2 aliceState "alice" (some "EVIL") (by decide)).1 "manifest unknown"
  exact ⟨hr.1, hr.2.2⟩

/-- Counterexample to C2 as stated: "EVIL" matches neither version regex
alternative, yet the reset intake path (which re-creates the instance) makes
container-runtime calls with it — it removes alice's container and issues
the image pull with the invalid tag — and the request ends in the uncaught
pull exception (a 500), never in a validation error. -/
theorem c2_counterexample :
    matchesVersion "EVIL" = false
  ∧ (resetInstance aliceState "alice" (some "EVIL") "freshkey" "2026-01-01T00:00:00+00:00"
       (some "manifest unknown")).1 = HRes.raised "manifest unknown"
  ∧ (resetInstance aliceState "alice" (some "EVIL") "freshkey" "2026-01-01T00:00:00+00:00"
       (some "manifest unknown")).2.2.countP
      (fun a => a == RAction.removeContainer (containerName "alice")) ≠ 0
  ∧ (resetInstance aliceState "alice" (some "EVIL") "freshkey" "2026-01-01T00:00:00+00:00"
       (some "manifest unknown")).2.2.countP
      (fun a => a == RAction.pullImage N8N_IMAGE "EVIL") ≠ 0 := by decide

/-- C1 (code bug): every sweeper tick raises NameError("datetime") at
cleanup.py line 16 — the module never imports datetime — before any
removal can happen, so no over-age instance is ever removed (the loop in
_cleanup_loop catches the error, so nothing propagates, but nothing is
cleaned either); had line 16 not raised, the removal loop from line 17 on
would have removed the over-age instance eve and its container would no
longer resolve. -/
theorem c1_cleanup_nameerror :
    (∀ views st, runCleanup views st = Except.error (PyError.nameError "datetime"))
  ∧ runCleanup eveViews eveState = Except.error (PyError.nameError "datetime")
  ∧ (cleanupSweepBody eveViews eveState).2 = 1
  ∧ getContainerSt (cleanupSweepBody eveViews eveState).1 (containerName "eve") = none
  ∧ ((6 : Int) ≥ (CLEANUP_MAX_AGE_DAYS : Int)) :=
  ⟨fun _ _ => rfl, rfl, by decide, by decide, by decide⟩

/-- Witness for c10_validate_normalizes: the concrete input "Alice " is
accepted and normalizes to "alice". -/
theorem c10_validate_normalizes_witness :
    validateInstanceName "Alice " = Except.ok "alice" :=
  c10_validate_normalizes.2
